import Mathlib

/-!
Shallow embedding of the JACCUS adaptive cruise control system
(`jaccus/targets/jaccus/adas/adaptive_cruise_control.py` and
`jaccus/targets/jaccus/core/config.py`).

Python floats are modelled as rationals (`ℚ`); the value `float('inf')`
that the obstacle/boundary evaluators use is modelled with `WithTop ℚ`
(`⊤` standing for infinity).  CARLA world/map queries, the current vehicle
speed and the agent's `run_step` result are inputs supplied by environment
structures; queries that may raise a Python exception are modelled as
`Except String` values.  HUD notifications and log calls are side effects
with no influence on control flow or state and are omitted.
-/

namespace Jaccus

/-! ## Configuration constants (`core/config.py`, class `Config`) -/

namespace Config

/-- `ACC_DEFAULT_TARGET_SPEED = 60.0` (km/h). -/
def ACC_DEFAULT_TARGET_SPEED : ℚ := 60

/-- `ACC_MIN_SPEED = 20.0` (km/h). -/
def ACC_MIN_SPEED : ℚ := 20

/-- `ACC_MAX_SPEED = 120.0` (km/h). -/
def ACC_MAX_SPEED : ℚ := 120

/-- `ACC_SPEED_INCREMENT = 2.0` (km/h). -/
def ACC_SPEED_INCREMENT : ℚ := 2

/-- `EMERGENCY_BRAKE_DISTANCE = 5.0` (meters, immediate emergency brake). -/
def EMERGENCY_BRAKE_DISTANCE : ℚ := 5

/-- `EMERGENCY_BRAKE_WARNING_DISTANCE = 15.0` (meters, warning zone). -/
def EMERGENCY_BRAKE_WARNING_DISTANCE : ℚ := 15

/-- Attribute lookup `Config.emergency_brake_distance` as performed at
`adaptive_cruise_control.py:592`.  Python attribute access is
case-sensitive and `config.py` defines only the uppercase
`EMERGENCY_BRAKE_DISTANCE`, so this lookup raises `AttributeError`;
we model the raising lookup as an `Except` error value. -/
def emergency_brake_distance : Except String ℚ :=
  .error "AttributeError: type object Config has no attribute emergency_brake_distance"

end Config

/-! ## CARLA-side data -/

/-- `carla.VehicleControl`: the control command record built and returned by
`update_control` and its helpers. -/
structure VehicleControl where
  throttle : ℚ
  steer : ℚ
  brake : ℚ
  hand_brake : Bool
  reverse : Bool
  manual_gear_shift : Bool
  gear : ℤ
deriving DecidableEq, Repr

/-- `carla.LaneType` values distinguished by `_check_road_boundaries`. -/
inductive LaneType where
  | Driving
  | Sidewalk
  | Shoulder
  | Border
  | Restricted
  | Parking
  | Other
deriving DecidableEq, Repr

/-- The waypoint attributes read by `_check_road_boundaries`. -/
structure Waypoint where
  lane_type : LaneType
  lane_width : ℚ
deriving DecidableEq, Repr

/-- An entry of `world.obstacle_detection.obstacles`; the ACC code reads
only `obstacle.distance`. -/
structure Obstacle where
  distance : ℚ
deriving DecidableEq, Repr

/-- The map queries issued by `_check_road_boundaries`, abstracted per
lookahead distance.  Each query may raise (`Except.error`):

* `current_waypoint`: `world.map.get_waypoint(vehicle_location, project_to_road=True)`;
* `future_waypoint d`: `world.map.get_waypoint(future_location, project_to_road=False)`
  at the location `d` meters ahead;
* `nearest_waypoint d`: the re-query with `project_to_road=True` at the same
  projected location;
* `road_distance d`: `future_location.distance(nearest_waypoint.transform.location)`. -/
structure BoundaryEnv where
  current_waypoint : Except String (Option Waypoint)
  future_waypoint : ℚ → Except String (Option Waypoint)
  nearest_waypoint : ℚ → Except String (Option Waypoint)
  road_distance : ℚ → Except String ℚ

/-- A `BoundaryEnv` whose queries always succeed (the normal CARLA case). -/
structure TotalBoundaryEnv where
  current_waypoint : Option Waypoint
  future_waypoint : ℚ → Option Waypoint
  nearest_waypoint : ℚ → Option Waypoint
  road_distance : ℚ → ℚ

/-- Lift an exception-free environment into the fallible interface. -/
def TotalBoundaryEnv.lift (t : TotalBoundaryEnv) : BoundaryEnv where
  current_waypoint := .ok t.current_waypoint
  future_waypoint := fun d => .ok (t.future_waypoint d)
  nearest_waypoint := fun d => .ok (t.nearest_waypoint d)
  road_distance := fun d => .ok (t.road_distance d)

/-- The world data consulted by `_get_closest_obstacle_distance`:
the boundary-check queries plus `world.obstacle_detection.obstacles`
(`none` when `world.obstacle_detection` is falsy or lacks the
`obstacles` attribute, in which case the scan is skipped). -/
structure WorldEnv where
  boundary : BoundaryEnv
  obstacle_detection : Option (List Obstacle)

/-! ## String formatting helpers

Python renders distances into the brake-reason strings with `f"{d:.1f}"`.
`fmt1` renders a rational to one decimal place (rounding half away from
zero; the reasons built in this development only format exact one-decimal
values, where the two rounding conventions agree), and `fmtTop` renders
`float('inf')` the way Python's `format` does, as `"inf"`. -/

/-- One-decimal rendering of a rational, e.g. `fmt1 4 = "4.0"`. -/
def fmt1 (q : ℚ) : String :=
  (if q < 0 then "-" else "") ++ toString (⌊|q| * 10 + 1 / 2⌋ / 10) ++ "." ++
    toString (⌊|q| * 10 + 1 / 2⌋ % 10)

/-- One-decimal rendering of a possibly-infinite distance. -/
def fmtTop (x : WithTop ℚ) : String :=
  if x = ⊤ then "inf" else fmt1 (x.untop' 0)

/-! ## Road boundary check (`_check_road_boundaries`, lines 462-551) -/

/-- The hard-coded lookahead distances `check_distances = [2.0, 4.0, 6.0, 8.0, 12.0]`
(line 489). -/
def check_distances : List ℚ := [2, 4, 6, 8, 12]

/-- The body of one iteration of the lookahead loop of
`_check_road_boundaries` (lines 491-543): whether the violation conditions
fire at lookahead `distance`, given the waypoint at the vehicle's own
position.  Returns `Except.ok true` exactly when the Python loop would
`return True, distance` at this iteration. -/
def check_boundary_at (env : BoundaryEnv) (current_waypoint : Waypoint)
    (distance : ℚ) : Except String Bool :=
  match env.future_waypoint distance with
  | .error e => .error e
  | .ok none =>
    match env.nearest_waypoint distance with
    | .error e => .error e
    | .ok (some _) =>
      match env.road_distance distance with
      | .error e => .error e
      | .ok road_distance =>
        if road_distance > 3 then .ok true else .ok false
    | .ok none => .ok true
  | .ok (some future_waypoint) =>
    if future_waypoint.lane_type = LaneType.Sidewalk then .ok true
    else if future_waypoint.lane_type ∈
        [LaneType.Shoulder, LaneType.Border, LaneType.Restricted] then .ok true
    else if current_waypoint.lane_width > 0 ∧
        future_waypoint.lane_width < current_waypoint.lane_width * (5 / 10) then .ok true
    else .ok false

/-- The lookahead loop of `_check_road_boundaries`: walk the distances in
order, returning `(true, distance)` at the first violating one. -/
def check_boundary_loop (env : BoundaryEnv) (current_waypoint : Waypoint) :
    List ℚ → Except String (Bool × WithTop ℚ)
  | [] => .ok (false, ⊤)
  | distance :: rest =>
    match check_boundary_at env current_waypoint distance with
    | .error e => .error e
    | .ok true => .ok (true, (distance : WithTop ℚ))
    | .ok false => check_boundary_loop env current_waypoint rest

/-- The body of `_check_road_boundaries` inside its `try:` block. -/
def check_road_boundaries_body (env : BoundaryEnv) :
    Except String (Bool × WithTop ℚ) :=
  match env.current_waypoint with
  | .error e => .error e
  | .ok none => .ok (false, ⊤)
  | .ok (some current_waypoint) =>
    check_boundary_loop env current_waypoint check_distances

/-- `_check_road_boundaries` with its `except Exception` handler
(lines 547-551): any exception yields `(False, float('inf'))`. -/
def check_road_boundaries (env : BoundaryEnv) : Bool × WithTop ℚ :=
  match check_road_boundaries_body env with
  | .ok r => r
  | .error _ => (false, ⊤)

/-- The violation test of one loop iteration, specialised to an
exception-free environment (pure `Bool` form of `check_boundary_at`;
the two agree on lifted environments, see `check_boundary_at_lift`). -/
def check_boundary_at_total (t : TotalBoundaryEnv) (cw : Waypoint) (d : ℚ) : Bool :=
  match t.future_waypoint d with
  | none =>
    match t.nearest_waypoint d with
    | some _ => decide (t.road_distance d > 3)
    | none => true
  | some fw =>
    if fw.lane_type = LaneType.Sidewalk then true
    else if fw.lane_type ∈ [LaneType.Shoulder, LaneType.Border, LaneType.Restricted] then true
    else if cw.lane_width > 0 ∧ fw.lane_width < cw.lane_width * (5 / 10) then true
    else false

/-! ## Obstacle evaluator (`_get_closest_obstacle_distance`, lines 553-609) -/

/-- The `for obstacle in world.obstacle_detection.obstacles` loop
(lines 587-595), threading the `min_distance`, `emergency_brake` and
`brake_reason` accumulators.  The comparison against
`Config.emergency_brake_distance` performs the raising attribute lookup. -/
def obstacle_scan : List Obstacle → WithTop ℚ → Bool → String →
    Except String (WithTop ℚ × Bool × String)
  | [], min_distance, emergency_brake, brake_reason =>
    .ok (min_distance, emergency_brake, brake_reason)
  | obstacle :: rest, min_distance, emergency_brake, brake_reason =>
    let min_distance := min min_distance (obstacle.distance : WithTop ℚ)
    match Config.emergency_brake_distance with
    | .error e => .error e
    | .ok threshold =>
      if obstacle.distance < threshold then
        obstacle_scan rest min_distance true
          (if brake_reason = "" then "Obstacle at " ++ fmt1 obstacle.distance ++ "m"
           else brake_reason)
      else
        obstacle_scan rest min_distance emergency_brake brake_reason

/-- The body of `_get_closest_obstacle_distance` inside its `try:` block:
the boundary check first (returning immediately on a violation), then the
obstacle scan. -/
def get_closest_obstacle_distance_body (env : WorldEnv) :
    Except String (WithTop ℚ × Bool × String) :=
  let r := check_road_boundaries env.boundary
  if r.1 then
    .ok (min ⊤ r.2, true, "Road boundary violation at " ++ fmtTop r.2 ++ "m")
  else
    match env.obstacle_detection with
    | some obstacles => obstacle_scan obstacles ⊤ false ""
    | none => .ok (⊤, false, "")

/-- `_get_closest_obstacle_distance` with its `except Exception` handler
(lines 605-609): any exception yields `(float('inf'), False, "")`. -/
def get_closest_obstacle_distance (env : WorldEnv) : WithTop ℚ × Bool × String :=
  match get_closest_obstacle_distance_body env with
  | .ok r => r
  | .error _ => (⊤, false, "")

/-! ## Controller state (`AdaptiveCruiseControl.__init__`, lines 64-99)

The PID gains and the integral limit are set once in `__init__` to fixed
literals and never reassigned, so they are embedded as constants. -/

/-- `self.pid_kp = 1.2`. -/
def pid_kp : ℚ := 12 / 10

/-- `self.pid_ki = 0.15`. -/
def pid_ki : ℚ := 15 / 100

/-- `self.pid_kd = 0.3`. -/
def pid_kd : ℚ := 3 / 10

/-- `self.pid_integral_limit = 20.0`. -/
def pid_integral_limit : ℚ := 20

/-- The mutable attributes of `AdaptiveCruiseControl` that the control
logic reads or writes.  `agent` is `true` when `self.agent` holds an
agent object and `false` when it is `None`. -/
structure ACCState where
  enabled : Bool
  target_speed : ℚ
  agent : Bool
  manual_override_active : Bool
  emergency_brake_active : Bool
  obstacle_detected : Bool
  brake_factor : ℚ
  pid_integral : ℚ
  pid_previous_error : ℚ
deriving DecidableEq, Repr

/-- The state established by `__init__`. -/
def init : ACCState where
  enabled := false
  target_speed := Config.ACC_DEFAULT_TARGET_SPEED
  agent := false
  manual_override_active := false
  emergency_brake_active := false
  obstacle_detected := false
  brake_factor := 0
  pid_integral := 0
  pid_previous_error := 0

/-- `_clamp(value, min_value, max_value)` (lines 627-629):
`max(min_value, min(value, max_value))`. -/
def clamp (value min_value max_value : ℚ) : ℚ :=
  max min_value (min value max_value)

/-! ## Toggle (`toggle`, lines 101-131) -/

/-- The environment of one `toggle` call: the current speed read by
`_get_current_speed_kmh`, the module-level `CARLA_AGENTS_AVAILABLE` flag,
and whether `_initialize_agent` succeeds in installing an agent
(`false` models both an init failure and an unavailable agent class). -/
structure ToggleEnv where
  current_speed_kmh : ℚ
  carla_agents_available : Bool
  agent_init_ok : Bool

/-- `toggle()`: flip `enabled`; on enable, initialize the agent (or reset
the PID memory in fallback mode) and set
`target_speed = max(ACC_MIN_SPEED, current_speed)`; on disable, drop the
agent and clear `brake_factor` and the two override flags. -/
def toggle (st : ACCState) (env : ToggleEnv) : ACCState :=
  let st := { st with enabled := !st.enabled }
  if st.enabled then
    let st :=
      if env.carla_agents_available then
        { st with agent := env.agent_init_ok }
      else
        { st with pid_integral := 0, pid_previous_error := 0 }
    { st with target_speed := max Config.ACC_MIN_SPEED env.current_speed_kmh }
  else
    { st with agent := false, brake_factor := 0,
              manual_override_active := false, emergency_brake_active := false }

/-! ## Target-speed adjustment (lines 214-246) -/

/-- `increase_target_speed()`: when enabled, add the increment and clamp to
`[ACC_MIN_SPEED, ACC_MAX_SPEED]` (the push of the new target to the agent
is an external effect with no controller-state footprint). -/
def increase_target_speed (st : ACCState) : ACCState :=
  if st.enabled then
    let new_speed := st.target_speed + Config.ACC_SPEED_INCREMENT
    { st with target_speed := clamp new_speed Config.ACC_MIN_SPEED Config.ACC_MAX_SPEED }
  else st

/-- `decrease_target_speed()`: when enabled, subtract the increment and
clamp to `[ACC_MIN_SPEED, ACC_MAX_SPEED]`. -/
def decrease_target_speed (st : ACCState) : ACCState :=
  if st.enabled then
    let new_speed := st.target_speed - Config.ACC_SPEED_INCREMENT
    { st with target_speed := clamp new_speed Config.ACC_MIN_SPEED Config.ACC_MAX_SPEED }
  else st

/-! ## Control update (`update_control` and helpers, lines 280-454) -/

/-- The environment of one `update_control` tick: the world data for the
hazard evaluation, the current speed read by `_get_current_speed_kmh`
(the source computes `3.6 * |velocity|`; we take the resulting km/h value
as the input), the `CARLA_AGENTS_AVAILABLE` flag, and the result of
`self.agent.run_step()` (`Except.error` when it raises). -/
structure TickEnv where
  world : WorldEnv
  current_speed_kmh : ℚ
  carla_agents_available : Bool
  agent_run_step : Except String VehicleControl

/-- `_update_control_with_agent` (lines 350-404): on success, copy the
agent's control (forcing `manual_gear_shift = False`) and record its brake
as `brake_factor`; on an exception from `run_step`, fall back to a safe
stop (`throttle = 0`, `brake = 0.3`). -/
def update_control_with_agent (st : ACCState) (env : TickEnv)
    (base_control : VehicleControl) : VehicleControl × ACCState :=
  match env.agent_run_step with
  | .ok agent_control =>
    let agent_control := { agent_control with manual_gear_shift := false }
    let control : VehicleControl :=
      { throttle := agent_control.throttle
        steer := agent_control.steer
        brake := agent_control.brake
        hand_brake := agent_control.hand_brake
        reverse := agent_control.reverse
        manual_gear_shift := agent_control.manual_gear_shift
        gear := agent_control.gear }
    (control, { st with brake_factor := agent_control.brake })
  | .error _ =>
    ({ base_control with throttle := 0, brake := 3 / 10 },
     { st with brake_factor := 3 / 10 })

/-- `_update_control_fallback` (lines 406-454): the PID speed regulator
with integral clamping and error-magnitude-dependent throttle scaling. -/
def update_control_fallback (st : ACCState) (env : TickEnv)
    (base_control : VehicleControl) : VehicleControl × ACCState :=
  if st.manual_override_active then (base_control, st)
  else
    let current_speed := env.current_speed_kmh
    let speed_error := st.target_speed - current_speed
    let integral := st.pid_integral + speed_error
    let integral := max (-pid_integral_limit) (min pid_integral_limit integral)
    let derivative := speed_error - st.pid_previous_error
    let pid_output := pid_kp * speed_error + pid_ki * integral + pid_kd * derivative
    if pid_output > 0 then
      let throttle :=
        if speed_error > 4 then min (9 / 10) (pid_output / 15)
        else min (7 / 10) (pid_output / 8)
      ({ base_control with throttle := throttle, brake := 0 },
       { st with pid_integral := integral, pid_previous_error := speed_error,
                 brake_factor := 0 })
    else
      let brake := min (8 / 10) (|pid_output| / 10)
      ({ base_control with throttle := 0, brake := brake },
       { st with pid_integral := integral, pid_previous_error := speed_error,
                 brake_factor := brake })

/-- `update_control` (lines 280-348): hazard evaluation, the two
emergency-brake overrides, warning-zone bookkeeping, then delegation to
the agent or the PID fallback.  Returns the command together with the
post-tick controller state. -/
def update_control (st : ACCState) (env : TickEnv)
    (base_control : VehicleControl) : VehicleControl × ACCState :=
  if !st.enabled then (base_control, st)
  else
    let r := get_closest_obstacle_distance env.world
    let obstacle_distance := r.1
    let emergency_brake_detected := r.2.1
    if emergency_brake_detected then
      ({ base_control with throttle := 0, brake := 1 },
       { st with emergency_brake_active := true, manual_override_active := true,
                 brake_factor := 1 })
    else if obstacle_distance ≤ (Config.EMERGENCY_BRAKE_DISTANCE : WithTop ℚ) then
      ({ base_control with throttle := 0, brake := 1 },
       { st with emergency_brake_active := true, manual_override_active := true,
                 brake_factor := 1 })
    else
      let st :=
        if obstacle_distance ≤ (Config.EMERGENCY_BRAKE_WARNING_DISTANCE : WithTop ℚ) then
          { st with obstacle_detected := true, emergency_brake_active := false }
        else
          { st with obstacle_detected := false, emergency_brake_active := false,
                    manual_override_active := false }
      if env.carla_agents_available && st.agent then
        update_control_with_agent st env base_control
      else
        update_control_fallback st env base_control

/-! ## Operation sequences -/

/-- One public operation on the controller, with the environment data it
consumes. -/
inductive Op where
  | toggle (env : ToggleEnv)
  | increase
  | decrease
  | update (env : TickEnv) (base_control : VehicleControl)

/-- Apply one public operation to the state (discarding the command an
update tick returns). -/
def applyOp (st : ACCState) : Op → ACCState
  | .toggle env => toggle st env
  | .increase => increase_target_speed st
  | .decrease => decrease_target_speed st
  | .update env base_control => (update_control st env base_control).2

/-- Run a sequence of public operations. -/
def runOps (st : ACCState) (ops : List Op) : ACCState :=
  ops.foldl applyOp st

/-- Run a sequence of fallback-regulator ticks
(`_update_control_fallback`), keeping only the state. -/
def runFallbackTicks (st : ACCState) (ticks : List (TickEnv × VehicleControl)) :
    ACCState :=
  ticks.foldl (fun s t => (update_control_fallback s t.1 t.2).2) st

/-! ## Concrete sample data (used by witnesses and counterexamples) -/

/-- A boundary environment whose queries all succeed; the vehicle's own
position resolves to no surface point, so the check reports no violation. -/
def sampleBoundaryEnv : BoundaryEnv :=
  ⟨Except.ok none, fun _ => Except.ok none, fun _ => Except.ok none,
   fun _ => Except.ok 0⟩

/-- A world with no boundary hazard and no obstacle-detection sensor. -/
def sampleWorldNoHazard : WorldEnv := ⟨sampleBoundaryEnv, none⟩

/-- A world with no boundary hazard and a single obstacle reported at
`4.0` m, below the `5.0` m emergency threshold. -/
def sampleWorldObstacle4 : WorldEnv := ⟨sampleBoundaryEnv, some [⟨4⟩]⟩

/-- A neutral base control command. -/
def sampleBase : VehicleControl := ⟨0, 0, 0, false, false, false, 1⟩

/-- A tick with no hazards, current speed 0, agents unavailable. -/
def sampleTickIdle : TickEnv :=
  ⟨sampleWorldNoHazard, 0, false, Except.error "agent unavailable"⟩

/-- A tick with an obstacle at `4.0` m, current speed `50` km/h, agents
unavailable (PID fallback active). -/
def sampleTickObstacle4 : TickEnv :=
  ⟨sampleWorldObstacle4, 50, false, Except.error "agent unavailable"⟩

/-- An exception-free map in which the projection 6 m (and farther) ahead
resolves to no waypoint at all: a sidewalk-crossing violation at 6 m. -/
def sampleViolationMap : TotalBoundaryEnv :=
  ⟨some ⟨LaneType.Driving, 3⟩,
   fun d => if 6 ≤ d then none else some ⟨LaneType.Driving, 3⟩,
   fun _ => none, fun _ => 0⟩

/-- A world whose map reports the 6 m boundary violation and whose sensor
also reports an obstacle at `4.0` m. -/
def sampleWorldViolation : WorldEnv := ⟨sampleViolationMap.lift, some [⟨4⟩]⟩

/-- A tick seeing the 6 m boundary violation. -/
def sampleTickViolation : TickEnv :=
  ⟨sampleWorldViolation, 50, false, Except.error "agent unavailable"⟩

/-- An exception-free map on which the vehicle's own position resolves to
no surface point, although every projection ahead would violate. -/
def sampleNoSurfaceMap : TotalBoundaryEnv :=
  ⟨none, fun _ => some ⟨LaneType.Sidewalk, 3⟩, fun _ => none, fun _ => 0⟩

/-- A boundary environment whose very first map query raises. -/
def sampleErrorBoundaryEnv : BoundaryEnv :=
  ⟨Except.error "RuntimeError: time-out of 2000ms", fun _ => Except.ok none,
   fun _ => Except.ok none, fun _ => Except.ok 0⟩

/-- The freshly-enabled controller (fallback mode, default target). -/
def stEnabled : ACCState := { init with enabled := true }

/-- An enabled controller whose target sits at the maximum. -/
def stEnabledMax : ACCState :=
  { init with enabled := true, target_speed := Config.ACC_MAX_SPEED }

/-- An enabled controller whose target sits at the minimum. -/
def stEnabledMin : ACCState :=
  { init with enabled := true, target_speed := Config.ACC_MIN_SPEED }

/-- An enabled controller with both overrides latched and full brake
factor, as after an emergency stop. -/
def stOverrides : ACCState :=
  { init with
      enabled := true
      manual_override_active := true
      emergency_brake_active := true
      brake_factor := 1 }

/-! ## Helper lemmas -/

/-- Clamping lands in the interval whenever the interval is nonempty. -/
lemma clamp_mem (value min_value max_value : ℚ) (h : min_value ≤ max_value) :
    min_value ≤ clamp value min_value max_value ∧
    clamp value min_value max_value ≤ max_value := by
  unfold clamp
  exact ⟨le_max_left _ _, max_le h (min_le_right _ _)⟩

/-- One fallback tick keeps the integral inside the windup bound. -/
lemma fallback_integral_bounded (st : ACCState) (env : TickEnv)
    (base_control : VehicleControl) (h : |st.pid_integral| ≤ pid_integral_limit) :
    |(update_control_fallback st env base_control).2.pid_integral| ≤
      pid_integral_limit := by
  unfold update_control_fallback
  by_cases hov : st.manual_override_active
  · simpa [hov] using h
  · have hbound : ∀ x : ℚ,
        |max (-pid_integral_limit) (min pid_integral_limit x)| ≤ pid_integral_limit := by
      intro x
      rw [abs_le]
      refine ⟨le_max_left _ _, max_le ?_ (min_le_left _ _)⟩
      norm_num [pid_integral_limit]
    simp only [hov, if_false, Bool.false_eq_true]
    split <;> simpa using hbound _

/-- A fallback tick never changes `target_speed`. -/
lemma fallback_target_speed (st : ACCState) (env : TickEnv)
    (base_control : VehicleControl) :
    (update_control_fallback st env base_control).2.target_speed =
      st.target_speed := by
  unfold update_control_fallback
  split
  · rfl
  · dsimp only
    split <;> rfl

/-- An agent tick never changes `target_speed`. -/
lemma with_agent_target_speed (st : ACCState) (env : TickEnv)
    (base_control : VehicleControl) :
    (update_control_with_agent st env base_control).2.target_speed =
      st.target_speed := by
  unfold update_control_with_agent
  cases env.agent_run_step <;> rfl

/-- An `update_control` tick never changes `target_speed`. -/
lemma update_control_target_speed (st : ACCState) (env : TickEnv)
    (base_control : VehicleControl) :
    (update_control st env base_control).2.target_speed = st.target_speed := by
  unfold update_control
  split
  · rfl
  · dsimp only
    split
    · rfl
    · split
      · rfl
      · split <;> split <;>
          first
            | rw [with_agent_target_speed]
            | rw [fallback_target_speed]

/-- A fallback tick never changes `emergency_brake_active`. -/
lemma fallback_emergency_flag (st : ACCState) (env : TickEnv)
    (base_control : VehicleControl) :
    (update_control_fallback st env base_control).2.emergency_brake_active =
      st.emergency_brake_active := by
  unfold update_control_fallback
  split
  · rfl
  · dsimp only
    split <;> rfl

/-- An agent tick never changes `emergency_brake_active`. -/
lemma with_agent_emergency_flag (st : ACCState) (env : TickEnv)
    (base_control : VehicleControl) :
    (update_control_with_agent st env base_control).2.emergency_brake_active =
      st.emergency_brake_active := by
  unfold update_control_with_agent
  cases env.agent_run_step <;> rfl

/-- When the boundary check reports a violation, the combined evaluator
returns immediately with the boundary result and reason. -/
lemma get_closest_of_boundary_violation (env : WorldEnv)
    (h : (check_road_boundaries env.boundary).1 = true) :
    get_closest_obstacle_distance env =
      (min ⊤ (check_road_boundaries env.boundary).2, true,
       "Road boundary violation at " ++
         fmtTop (check_road_boundaries env.boundary).2 ++ "m") := by
  unfold get_closest_obstacle_distance get_closest_obstacle_distance_body
  simp [h]

/-- When enabled, `increase_target_speed` clamps into the speed band;
when disabled it is the identity, so in-band targets stay in band. -/
lemma increase_target_bounds (st : ACCState)
    (h1 : Config.ACC_MIN_SPEED ≤ st.target_speed)
    (h2 : st.target_speed ≤ Config.ACC_MAX_SPEED) :
    Config.ACC_MIN_SPEED ≤ (increase_target_speed st).target_speed ∧
    (increase_target_speed st).target_speed ≤ Config.ACC_MAX_SPEED := by
  unfold increase_target_speed
  split
  · exact clamp_mem _ _ _ (by norm_num [Config.ACC_MIN_SPEED, Config.ACC_MAX_SPEED])
  · exact ⟨h1, h2⟩

/-- The mirror statement for `decrease_target_speed`. -/
lemma decrease_target_bounds (st : ACCState)
    (h1 : Config.ACC_MIN_SPEED ≤ st.target_speed)
    (h2 : st.target_speed ≤ Config.ACC_MAX_SPEED) :
    Config.ACC_MIN_SPEED ≤ (decrease_target_speed st).target_speed ∧
    (decrease_target_speed st).target_speed ≤ Config.ACC_MAX_SPEED := by
  unfold decrease_target_speed
  split
  · exact clamp_mem _ _ _ (by norm_num [Config.ACC_MIN_SPEED, Config.ACC_MAX_SPEED])
  · exact ⟨h1, h2⟩

/-- `toggle` keeps the target in the speed band provided the current
speed does not exceed the maximum. -/
lemma toggle_target_bounds (st : ACCState) (env : ToggleEnv)
    (hspeed : env.current_speed_kmh ≤ Config.ACC_MAX_SPEED)
    (h1 : Config.ACC_MIN_SPEED ≤ st.target_speed)
    (h2 : st.target_speed ≤ Config.ACC_MAX_SPEED) :
    Config.ACC_MIN_SPEED ≤ (toggle st env).target_speed ∧
    (toggle st env).target_speed ≤ Config.ACC_MAX_SPEED := by
  unfold toggle
  dsimp only
  split
  · refine ⟨le_max_left _ _, max_le ?_ hspeed⟩
    norm_num [Config.ACC_MIN_SPEED, Config.ACC_MAX_SPEED]
  · exact ⟨h1, h2⟩

/-- Target-speed band preservation along a whole operation sequence. -/
lemma runOps_target_bounds (ops : List Op) : ∀ st : ACCState,
    Config.ACC_MIN_SPEED ≤ st.target_speed →
    st.target_speed ≤ Config.ACC_MAX_SPEED →
    (∀ env : ToggleEnv, Op.toggle env ∈ ops →
      env.current_speed_kmh ≤ Config.ACC_MAX_SPEED) →
    Config.ACC_MIN_SPEED ≤ (runOps st ops).target_speed ∧
    (runOps st ops).target_speed ≤ Config.ACC_MAX_SPEED := by
  induction ops with
  | nil => intro st h1 h2 _; exact ⟨h1, h2⟩
  | cons op rest ih =>
    intro st h1 h2 hext
    have hstep : Config.ACC_MIN_SPEED ≤ (applyOp st op).target_speed ∧
        (applyOp st op).target_speed ≤ Config.ACC_MAX_SPEED := by
      cases op with
      | toggle env =>
        exact toggle_target_bounds st env
          (hext env (List.mem_cons_self _ _)) h1 h2
      | increase => exact increase_target_bounds st h1 h2
      | decrease => exact decrease_target_bounds st h1 h2
      | update env base_control =>
        rw [applyOp, update_control_target_speed]
        exact ⟨h1, h2⟩
    have hrest := ih (applyOp st op) hstep.1 hstep.2
      (fun env hm => hext env (List.mem_cons_of_mem _ hm))
    simpa [runOps] using hrest

/-- On lifted (exception-free) environments the fallible per-distance
check computes the pure violation test. -/
lemma check_boundary_at_lift (t : TotalBoundaryEnv) (cw : Waypoint) (d : ℚ) :
    check_boundary_at t.lift cw d = Except.ok (check_boundary_at_total t cw d) := by
  unfold check_boundary_at check_boundary_at_total TotalBoundaryEnv.lift
  dsimp only
  cases hf : t.future_waypoint d with
  | none =>
    dsimp only
    cases hn : t.nearest_waypoint d with
    | none => rfl
    | some nw =>
      dsimp only
      by_cases h : t.road_distance d > 3 <;> simp [h]
  | some fw =>
    dsimp only
    split_ifs <;> rfl

/-- On lifted environments the lookahead loop returns the first violating
distance of the list (or none). -/
lemma check_boundary_loop_lift (t : TotalBoundaryEnv) (cw : Waypoint)
    (l : List ℚ) :
    check_boundary_loop t.lift cw l =
      Except.ok (match l.find? (check_boundary_at_total t cw) with
        | some d => (true, (d : WithTop ℚ))
        | none => (false, ⊤)) := by
  induction l with
  | nil => rfl
  | cons d rest ih =>
    rw [check_boundary_loop, check_boundary_at_lift]
    cases hb : check_boundary_at_total t cw d with
    | true =>
      rw [List.find?_cons_of_pos _ hb]
    | false =>
      rw [List.find?_cons_of_neg _ (by simp [hb])]
      exact ih

/-- The whole boundary check on a lifted environment, in closed form. -/
lemma check_road_boundaries_lift (t : TotalBoundaryEnv) :
    check_road_boundaries t.lift =
      (match t.current_waypoint with
       | none => (false, ⊤)
       | some cw =>
         match check_distances.find? (check_boundary_at_total t cw) with
         | some d => (true, (d : WithTop ℚ))
         | none => (false, ⊤)) := by
  unfold check_road_boundaries check_road_boundaries_body
  rw [show (TotalBoundaryEnv.lift t).current_waypoint = Except.ok t.current_waypoint
        from rfl]
  cases t.current_waypoint with
  | none => rfl
  | some cw =>
    dsimp only
    rw [check_boundary_loop_lift]

/-- `find?` on a `≤`-sorted list returns a minimal satisfying element. -/
lemma find?_min_of_sorted (p : ℚ → Bool) (l : List ℚ)
    (hs : l.Pairwise (fun a b => a ≤ b)) (a : ℚ) (hf : l.find? p = some a) :
    a ∈ l ∧ p a = true ∧ ∀ b ∈ l, p b = true → a ≤ b := by
  induction l with
  | nil => cases hf
  | cons x xs ih =>
    rcases List.pairwise_cons.mp hs with ⟨hx, hxs⟩
    by_cases hpx : p x = true
    · rw [List.find?_cons_of_pos _ hpx] at hf
      injection hf with hax
      subst hax
      refine ⟨List.mem_cons_self _ _, hpx, ?_⟩
      intro b hb _
      rcases List.mem_cons.mp hb with rfl | hbx
      · exact le_refl _
      · exact hx b hbx
    · rw [List.find?_cons_of_neg _ hpx] at hf
      obtain ⟨hmem, hpa, hmin⟩ := ih hxs hf
      refine ⟨List.mem_cons_of_mem _ hmem, hpa, ?_⟩
      intro b hb hpb
      rcases List.mem_cons.mp hb with rfl | hbx
      · exact absurd hpb hpx
      · exact hmin b hbx hpb

/-- The hard-coded lookahead list is sorted ascending. -/
lemma check_distances_sorted : check_distances.Pairwise (fun a b => a ≤ b) := by
  norm_num [check_distances]

/-- Evaluation of the one-decimal rendering at `6`. -/
lemma fmt1_six : fmt1 6 = "6.0" := by
  unfold fmt1
  rw [if_neg (by norm_num), show (⌊|(6 : ℚ)| * 10 + 1 / 2⌋ : ℤ) = 60 by norm_num]
  rfl

/-- Evaluation of the possibly-infinite rendering at `6`. -/
lemma fmtTop_coe_six : fmtTop ((6 : ℚ) : WithTop ℚ) = "6.0" := by
  unfold fmtTop
  rw [if_neg WithTop.coe_ne_top]
  exact fmt1_six

/-- The sample sidewalk-crossing map triggers the boundary check at 6 m. -/
lemma sampleViolation_check :
    check_road_boundaries sampleWorldViolation.boundary =
      (true, ((6 : ℚ) : WithTop ℚ)) := by
  norm_num [check_road_boundaries, check_road_boundaries_body, check_boundary_loop,
    check_distances, check_boundary_at, sampleWorldViolation, sampleViolationMap,
    TotalBoundaryEnv.lift]
  decide

/-- Full evaluation of the obstacle-at-4m tick: the hazard is swallowed by
the `AttributeError` handler and the PID fallback accelerates. -/
lemma sampleObstacle4_tick :
    update_control stEnabled sampleTickObstacle4 sampleBase =
      (⟨9 / 10, 0, 0, false, false, false, 1⟩,
       { stEnabled with pid_integral := 10, pid_previous_error := 10 }) := by
  norm_num [update_control, stEnabled, init, sampleTickObstacle4, sampleWorldObstacle4,
    sampleBoundaryEnv, sampleBase, get_closest_obstacle_distance,
    get_closest_obstacle_distance_body, check_road_boundaries, check_road_boundaries_body,
    obstacle_scan, Config.emergency_brake_distance, Config.ACC_DEFAULT_TARGET_SPEED,
    Config.EMERGENCY_BRAKE_DISTANCE, Config.EMERGENCY_BRAKE_WARNING_DISTANCE,
    update_control_fallback, pid_kp, pid_ki, pid_kd, pid_integral_limit,
    top_le_iff, WithTop.coe_ne_top, min_def, max_def]

/-! ## Claim theorems -/

/-- C5: for every starting `target_speed`, `increase_target_speed` and
`decrease_target_speed` yield a `target_speed` within
`[ACC_MIN_SPEED, ACC_MAX_SPEED]`; an adjustment repeated at the relevant
bound leaves `target_speed` unchanged; and both operations are no-ops on
the whole controller state when the controller is disabled. -/
theorem c5_speed_adjustment_clamped (st : ACCState) :
    (st.enabled = true →
      Config.ACC_MIN_SPEED ≤ (increase_target_speed st).target_speed ∧
      (increase_target_speed st).target_speed ≤ Config.ACC_MAX_SPEED ∧
      Config.ACC_MIN_SPEED ≤ (decrease_target_speed st).target_speed ∧
      (decrease_target_speed st).target_speed ≤ Config.ACC_MAX_SPEED ∧
      (st.target_speed = Config.ACC_MAX_SPEED →
        (increase_target_speed st).target_speed = st.target_speed) ∧
      (st.target_speed = Config.ACC_MIN_SPEED →
        (decrease_target_speed st).target_speed = st.target_speed)) ∧
    (st.enabled = false →
      increase_target_speed st = st ∧ decrease_target_speed st = st) := by
  have hle : Config.ACC_MIN_SPEED ≤ Config.ACC_MAX_SPEED := by
    norm_num [Config.ACC_MIN_SPEED, Config.ACC_MAX_SPEED]
  constructor
  · intro hen
    refine ⟨?_, ?_, ?_, ?_, ?_, ?_⟩
    · simpa [increase_target_speed, hen] using (clamp_mem _ _ _ hle).1
    · simpa [increase_target_speed, hen] using (clamp_mem _ _ _ hle).2
    · simpa [decrease_target_speed, hen] using (clamp_mem _ _ _ hle).1
    · simpa [decrease_target_speed, hen] using (clamp_mem _ _ _ hle).2
    · intro htop
      simp only [increase_target_speed, hen, if_true, htop]
      unfold clamp
      rw [min_eq_right (by norm_num [Config.ACC_MAX_SPEED, Config.ACC_SPEED_INCREMENT]),
        max_eq_right hle]
    · intro hbot
      simp only [decrease_target_speed, hen, if_true, hbot]
      unfold clamp
      rw [min_eq_left (by norm_num [Config.ACC_MIN_SPEED, Config.ACC_MAX_SPEED,
            Config.ACC_SPEED_INCREMENT]),
        max_eq_left (by norm_num [Config.ACC_MIN_SPEED, Config.ACC_SPEED_INCREMENT])]
  · intro hdis
    constructor <;> simp [increase_target_speed, decrease_target_speed, hdis]

/-- Witness for C5 at a concrete state: enabled at the maximum target. -/
theorem c5_speed_adjustment_clamped_witness :
    (increase_target_speed stEnabledMax).target_speed ≤ Config.ACC_MAX_SPEED := by
  exact ((c5_speed_adjustment_clamped stEnabledMax).1 rfl).2.1

/-- C6: after every sequence of fallback-regulator ticks with arbitrary
speed errors, the PID integral stays within the windup limit `±20.0`
(the bound holds at `__init__`, where the integral is `0`, and every tick
re-establishes it). -/
theorem c6_pid_integral_windup_bound (st : ACCState)
    (ticks : List (TickEnv × VehicleControl))
    (h : |st.pid_integral| ≤ pid_integral_limit) :
    |(runFallbackTicks st ticks).pid_integral| ≤ pid_integral_limit := by
  induction ticks generalizing st with
  | nil => simpa [runFallbackTicks] using h
  | cons t ts ih =>
    have hstep := fallback_integral_bounded st t.1 t.2 h
    simpa [runFallbackTicks] using ih _ hstep

/-- Witness for C6: two concrete ticks with a `120` km/h error each. -/
theorem c6_pid_integral_windup_bound_witness :
    |(runFallbackTicks stEnabledMax
        [(sampleTickIdle, sampleBase), (sampleTickIdle, sampleBase)]).pid_integral| ≤
      pid_integral_limit := by
  exact c6_pid_integral_windup_bound stEnabledMax _
    (by norm_num [stEnabledMax, init, pid_integral_limit])

/-- C7: with manual override inactive, one fallback tick computes the PID
output `u` from the clamped integral; if `u > 0` the command brakes with
`0` and throttles with `min(0.9, u/15)` for errors above `4.0` km/h and
`min(0.7, u/8)` otherwise; if `u ≤ 0` it throttles with `0` and brakes
with `min(0.8, |u|/10)`; in either case `pid_previous_error` becomes the
current error. -/
theorem c7_fallback_pid_output (st : ACCState) (env : TickEnv)
    (base_control : VehicleControl)
    (hov : st.manual_override_active = false)
    (e i u : ℚ)
    (he : e = st.target_speed - env.current_speed_kmh)
    (hi : i = max (-pid_integral_limit) (min pid_integral_limit (st.pid_integral + e)))
    (hu : u = pid_kp * e + pid_ki * i + pid_kd * (e - st.pid_previous_error)) :
    (0 < u →
      (update_control_fallback st env base_control).1.brake = 0 ∧
      (update_control_fallback st env base_control).1.throttle =
        (if 4 < e then min (9 / 10) (u / 15) else min (7 / 10) (u / 8))) ∧
    (u ≤ 0 →
      (update_control_fallback st env base_control).1.throttle = 0 ∧
      (update_control_fallback st env base_control).1.brake =
        min (8 / 10) (|u| / 10)) ∧
    (update_control_fallback st env base_control).2.pid_previous_error = e := by
  subst he hi hu
  unfold update_control_fallback
  simp only [hov, Bool.false_eq_true, if_false]
  constructor
  · intro hpos
    rw [if_pos hpos]
    exact ⟨by norm_num, rfl⟩
  · constructor
    · intro hneg
      rw [if_neg (not_lt.mpr hneg)]
      exact ⟨by norm_num, rfl⟩
    · split <;> rfl

/-- Witness for C7 at a concrete positive-output input. -/
theorem c7_fallback_pid_output_witness :
    (update_control_fallback stEnabled sampleTickObstacle4 sampleBase).1.brake = 0 := by
  refine ((c7_fallback_pid_output stEnabled sampleTickObstacle4 sampleBase rfl
      10 10 (33 / 2) ?_ ?_ ?_).1 (by norm_num)).1
  · norm_num [stEnabled, init, sampleTickObstacle4, Config.ACC_DEFAULT_TARGET_SPEED]
  · norm_num [stEnabled, init, pid_integral_limit, sampleTickObstacle4,
      Config.ACC_DEFAULT_TARGET_SPEED]
  · norm_num [stEnabled, init, pid_kp, pid_ki, pid_kd]

/-- C8: toggling an enabled controller off clears both override flags,
`brake_factor` and the agent handle while preserving `target_speed` and
the PID memory; a subsequent re-enable still has both flags `false` and
`brake_factor = 0`. -/
theorem c8_disable_resets_overrides (st : ACCState) (env envr : ToggleEnv)
    (h : st.enabled = true) :
    (toggle st env).enabled = false ∧
    (toggle st env).manual_override_active = false ∧
    (toggle st env).emergency_brake_active = false ∧
    (toggle st env).brake_factor = 0 ∧
    (toggle st env).agent = false ∧
    (toggle st env).target_speed = st.target_speed ∧
    (toggle st env).pid_integral = st.pid_integral ∧
    (toggle st env).pid_previous_error = st.pid_previous_error ∧
    (toggle (toggle st env) envr).manual_override_active = false ∧
    (toggle (toggle st env) envr).emergency_brake_active = false ∧
    (toggle (toggle st env) envr).brake_factor = 0 := by
  by_cases hc : envr.carla_agents_available <;>
    simp [toggle, h, hc]

/-- Witness for C8 at a concrete enabled state. -/
theorem c8_disable_resets_overrides_witness :
    (toggle stOverrides ⟨30, false, false⟩).manual_override_active = false := by
  exact (c8_disable_resets_overrides stOverrides
    ⟨30, false, false⟩ ⟨40, true, true⟩ rfl).2.1

/-- C1: on every enabled tick in which the boundary check reports a
violation, the returned command has `throttle = 0` and `brake = 1.0`,
irrespective of the agent availability, the agent's own output, the
obstacle feed, and every other input. -/
theorem c1_boundary_violation_overrides (st : ACCState) (env : TickEnv)
    (base_control : VehicleControl) (hen : st.enabled = true)
    (hviol : (check_road_boundaries env.world.boundary).1 = true) :
    (update_control st env base_control).1.throttle = 0 ∧
    (update_control st env base_control).1.brake = 1 := by
  unfold update_control
  rw [get_closest_of_boundary_violation env.world hviol]
  simp [hen]

/-- Witness for C1: the 6 m sidewalk-crossing map, agent unavailable. -/
theorem c1_boundary_violation_overrides_witness :
    (update_control stEnabled sampleTickViolation sampleBase).1.throttle = 0 ∧
    (update_control stEnabled sampleTickViolation sampleBase).1.brake = 1 := by
  have hb : (check_road_boundaries sampleWorldViolation.boundary).1 = true := by
    rw [sampleViolation_check]
  exact c1_boundary_violation_overrides stEnabled sampleTickViolation sampleBase rfl hb

/-- C2 (code evaluation at the failing input): with no boundary violation
and a single proximity detection at `4.0` m — below the `5.0` m emergency
threshold — the evaluator nevertheless reports no hazard, because the
obstacle loop's lookup of `Config.emergency_brake_distance` raises
`AttributeError` (config.py defines only `EMERGENCY_BRAKE_DISTANCE`) and
the handler returns `(inf, False, "")`.  The tick therefore proceeds to
normal PID control: `emergency_brake_active` is `false` afterwards and
the command accelerates (`throttle = 0.9`, `brake = 0`) instead of
emergency-braking. -/
theorem c2_obstacle_emergency_brake_never_fires :
    check_road_boundaries sampleWorldObstacle4.boundary = (false, ⊤) ∧
    sampleWorldObstacle4.obstacle_detection = some [⟨4⟩] ∧
    (4 : ℚ) < Config.EMERGENCY_BRAKE_DISTANCE ∧
    obstacle_scan [⟨4⟩] ⊤ false "" =
      Except.error
        "AttributeError: type object Config has no attribute emergency_brake_distance" ∧
    get_closest_obstacle_distance sampleWorldObstacle4 = (⊤, false, "") ∧
    (update_control stEnabled sampleTickObstacle4 sampleBase).2.emergency_brake_active
      = false ∧
    (update_control stEnabled sampleTickObstacle4 sampleBase).1.brake = 0 ∧
    (update_control stEnabled sampleTickObstacle4 sampleBase).1.throttle = 9 / 10 := by
  refine ⟨by decide, rfl, by norm_num [Config.EMERGENCY_BRAKE_DISTANCE], rfl, by decide,
    ?_, ?_, ?_⟩
  · rw [sampleObstacle4_tick]
    rfl
  · rw [sampleObstacle4_tick]
  · rw [sampleObstacle4_tick]

/-- C3: when the boundary check reports a violation, the evaluator records
and returns the boundary reason and distance, and its result does not
depend on the obstacle feed at all. -/
theorem c3_boundary_dominates_obstacles (env : WorldEnv)
    (obstacles : Option (List Obstacle)) (d : WithTop ℚ)
    (h : check_road_boundaries env.boundary = (true, d)) :
    get_closest_obstacle_distance env =
      (d, true, "Road boundary violation at " ++ fmtTop d ++ "m") ∧
    get_closest_obstacle_distance { env with obstacle_detection := obstacles } =
      get_closest_obstacle_distance env := by
  have h1 : (check_road_boundaries env.boundary).1 = true := by rw [h]
  have h2 : (check_road_boundaries env.boundary).2 = d := by rw [h]
  have hmain := get_closest_of_boundary_violation env h1
  rw [h2, min_eq_right le_top] at hmain
  refine ⟨hmain, ?_⟩
  have h1m : (check_road_boundaries
      ({ env with obstacle_detection := obstacles } : WorldEnv).boundary).1 = true := h1
  have hmod := get_closest_of_boundary_violation _ h1m
  rw [show ({ env with obstacle_detection := obstacles } : WorldEnv).boundary
        = env.boundary from rfl, h2, min_eq_right le_top] at hmod
  rw [hmod, hmain]

/-- Witness for C3: the 6 m violation world, with the obstacle feed
swapped out. -/
theorem c3_boundary_dominates_obstacles_witness :
    get_closest_obstacle_distance sampleWorldViolation =
      (((6 : ℚ) : WithTop ℚ), true, "Road boundary violation at 6.0m") ∧
    get_closest_obstacle_distance { sampleWorldViolation with obstacle_detection := none } =
      get_closest_obstacle_distance sampleWorldViolation := by
  have h := c3_boundary_dominates_obstacles sampleWorldViolation none
    (((6 : ℚ) : WithTop ℚ)) sampleViolation_check
  refine ⟨by rw [h.1, fmtTop_coe_six]; rfl, h.2⟩

/-- C10: any exception raised inside the boundary check is caught there and
yields `(False, inf)`; any exception raised inside the combined evaluator
(such as the `AttributeError` from the `Config.emergency_brake_distance`
lookup in the obstacle loop) is caught there and yields `(inf, False, "")`,
in which case an enabled tick clears the hazard flags and proceeds to
normal agent/fallback control with `emergency_brake_active = false`. -/
theorem c10_exceptions_fail_open (benv : BoundaryEnv) (st : ACCState)
    (env : TickEnv) (base_control : VehicleControl) (e1 e2 : String) :
    (check_road_boundaries_body benv = Except.error e1 →
      check_road_boundaries benv = (false, ⊤)) ∧
    (get_closest_obstacle_distance_body env.world = Except.error e2 →
      get_closest_obstacle_distance env.world = (⊤, false, "") ∧
      (st.enabled = true →
        update_control st env base_control =
          (if env.carla_agents_available && st.agent then
            update_control_with_agent { st with obstacle_detected := false, emergency_brake_active := false, manual_override_active := false } env base_control
          else
            update_control_fallback { st with obstacle_detected := false, emergency_brake_active := false, manual_override_active := false } env base_control) ∧
        (update_control st env base_control).2.emergency_brake_active = false)) := by
  constructor
  · intro hb
    unfold check_road_boundaries
    rw [hb]
  · intro hw
    have hres : get_closest_obstacle_distance env.world = (⊤, false, "") := by
      unfold get_closest_obstacle_distance
      rw [hw]
    refine ⟨hres, ?_⟩
    intro hen
    have hform : update_control st env base_control =
        (if env.carla_agents_available && st.agent then
          update_control_with_agent { st with obstacle_detected := false, emergency_brake_active := false, manual_override_active := false } env base_control
        else
          update_control_fallback { st with obstacle_detected := false, emergency_brake_active := false, manual_override_active := false } env base_control) := by
      unfold update_control
      rw [hres]
      simp [hen, Config.EMERGENCY_BRAKE_DISTANCE, Config.EMERGENCY_BRAKE_WARNING_DISTANCE]
    refine ⟨hform, ?_⟩
    rw [hform]
    split
    · rw [with_agent_emergency_flag]
    · rw [fallback_emergency_flag]

/-- Witness for C10: a boundary environment whose first query raises, and
the obstacle world whose scan raises the config `AttributeError`. -/
theorem c10_exceptions_fail_open_witness :
    check_road_boundaries sampleErrorBoundaryEnv = (false, ⊤) ∧
    get_closest_obstacle_distance sampleTickObstacle4.world = (⊤, false, "") := by
  have h := c10_exceptions_fail_open sampleErrorBoundaryEnv stEnabled
    sampleTickObstacle4 sampleBase "RuntimeError: time-out of 2000ms"
    "AttributeError: type object Config has no attribute emergency_brake_distance"
  exact ⟨h.1 rfl, (h.2 rfl).1⟩

/-- C4 counterexample: enabling the controller at a current speed of
`150` km/h sets `target_speed = max(20, 150) = 150`, which exceeds
`ACC_MAX_SPEED = 120`; the claimed invariant fails for this sequence of
public operations. -/
theorem c4_target_speed_invariant_counterexample :
    (runOps init [Op.toggle ⟨150, false, false⟩]).target_speed = 150 ∧
    ¬ (runOps init [Op.toggle ⟨150, false, false⟩]).target_speed ≤
        Config.ACC_MAX_SPEED := by
  constructor
  · decide
  · decide

/-- C4 (amended): along every sequence of public operations after
construction in which each toggle happens at a current speed of at most
`ACC_MAX_SPEED`, `target_speed` stays within
`[ACC_MIN_SPEED, ACC_MAX_SPEED] = [20, 120]`; and the enable transition
`target_speed = max(ACC_MIN_SPEED, current_speed)` guarantees the lower
bound for every current speed whatsoever, and the upper bound whenever
the current speed is at most `ACC_MAX_SPEED`, regardless of the previous
target. -/
theorem c4_target_speed_invariant (ops : List Op)
    (h : ∀ env : ToggleEnv, Op.toggle env ∈ ops →
      env.current_speed_kmh ≤ Config.ACC_MAX_SPEED) :
    (Config.ACC_MIN_SPEED ≤ (runOps init ops).target_speed ∧
     (runOps init ops).target_speed ≤ Config.ACC_MAX_SPEED) ∧
    (∀ st : ACCState, ∀ env : ToggleEnv, st.enabled = false →
      Config.ACC_MIN_SPEED ≤ (toggle st env).target_speed ∧
      (env.current_speed_kmh ≤ Config.ACC_MAX_SPEED →
        (toggle st env).target_speed ≤ Config.ACC_MAX_SPEED)) := by
  constructor
  · refine runOps_target_bounds ops init ?_ ?_ h
    · norm_num [init, Config.ACC_DEFAULT_TARGET_SPEED, Config.ACC_MIN_SPEED]
    · norm_num [init, Config.ACC_DEFAULT_TARGET_SPEED, Config.ACC_MAX_SPEED]
  · intro st env hdis
    unfold toggle
    dsimp only
    rw [hdis]
    simp only [Bool.not_false, if_true]
    refine ⟨le_max_left _ _, fun hspeed => max_le ?_ hspeed⟩
    norm_num [Config.ACC_MIN_SPEED, Config.ACC_MAX_SPEED]

/-- Witness for the amended C4: a toggle at `110` km/h followed by a
speed increase. -/
theorem c4_target_speed_invariant_witness :
    Config.ACC_MIN_SPEED ≤
      (runOps init [Op.toggle ⟨110, false, false⟩, Op.increase]).target_speed ∧
    (runOps init [Op.toggle ⟨110, false, false⟩, Op.increase]).target_speed ≤
      Config.ACC_MAX_SPEED := by
  refine (c4_target_speed_invariant [Op.toggle ⟨110, false, false⟩, Op.increase] ?_).1
  intro env hm
  rcases List.mem_cons.mp hm with hm | hm
  · cases hm
    norm_num [Config.ACC_MAX_SPEED]
  · rcases List.mem_cons.mp hm with hm | hm
    · cases hm
    · cases hm

/-- C9: the boundary check walks the lookahead distances
`[2, 4, 6, 8, 12]` in ascending order; if the vehicle's own position
resolves to no waypoint it reports `(false, inf)` whatever lies ahead; if
no distance triggers the per-distance violation test it reports
`(false, inf)`; and if some distance triggers it, it reports `(true, d)`
for the smallest triggering distance `d`. -/
theorem c9_boundary_check_first_violation (t : TotalBoundaryEnv) :
    (t.current_waypoint = none → check_road_boundaries t.lift = (false, ⊤)) ∧
    (∀ cw : Waypoint, t.current_waypoint = some cw →
      ((∀ d ∈ check_distances, check_boundary_at t.lift cw d = Except.ok false) →
        check_road_boundaries t.lift = (false, ⊤)) ∧
      (∀ d ∈ check_distances, check_boundary_at t.lift cw d = Except.ok true →
        ∃ dmin ∈ check_distances,
          check_boundary_at t.lift cw dmin = Except.ok true ∧
          (∀ e ∈ check_distances, check_boundary_at t.lift cw e = Except.ok true →
            dmin ≤ e) ∧
          check_road_boundaries t.lift = (true, (dmin : WithTop ℚ)))) := by
  have hlift := check_road_boundaries_lift t
  constructor
  · intro hc
    rw [hlift, hc]
  · intro cw hc
    rw [hc] at hlift
    dsimp only at hlift
    constructor
    · intro hall
      have hnone : check_distances.find? (check_boundary_at_total t cw) = none := by
        rw [List.find?_eq_none]
        intro d hd
        have hh := hall d hd
        rw [check_boundary_at_lift] at hh
        simp only [Except.ok.injEq] at hh
        simp [hh]
      rw [hlift, hnone]
    · intro d hd hviol
      rw [check_boundary_at_lift] at hviol
      simp only [Except.ok.injEq] at hviol
      cases hfind : check_distances.find? (check_boundary_at_total t cw) with
      | none =>
        exfalso
        rw [List.find?_eq_none] at hfind
        exact hfind d hd hviol
      | some a =>
        obtain ⟨hmem, hpa, hmin⟩ :=
          find?_min_of_sorted (check_boundary_at_total t cw) check_distances
            check_distances_sorted a hfind
        refine ⟨a, hmem, ?_, ?_, ?_⟩
        · rw [check_boundary_at_lift, hpa]
        · intro e he hetrue
          rw [check_boundary_at_lift] at hetrue
          simp only [Except.ok.injEq] at hetrue
          exact hmin e he hetrue
        · rw [hlift, hfind]

/-- Witness for C9: the fail-open case where the vehicle's own position
has no waypoint, although every projection ahead would violate. -/
theorem c9_boundary_check_first_violation_witness :
    check_road_boundaries sampleNoSurfaceMap.lift = (false, ⊤) := by
  exact (c9_boundary_check_first_violation sampleNoSurfaceMap).1 rfl

end Jaccus
